import Mathlib

/-!
Shallow embedding of the PIXSHOP image-generator backend: the Express
server in `backend/server.js` together with its sibling revision that
carries the description endpoints.  Mutable Mongo documents become
explicit record updates, the `Google_sheet_data` collection becomes a
list of records, and the public image directory becomes an association
list from file names to the base64 payload text written there (the
byte values produced by `Buffer.from(..., 'base64')` play no role in
any property below, so a buffer is represented by its base64 source
text).
-/

/-- JavaScript truthiness of an optional string field: `null`/missing and
the empty string are falsy, every other string is truthy. -/
def truthyStr : Option String → Bool
  | none => false
  | some s => s != ""

/-- JavaScript truthiness of an optional numeric field: `null`/missing and
`0` are falsy. -/
def truthyNat : Option Nat → Bool
  | none => false
  | some n => n != 0

/-- JS `s.startsWith(p)`, as a character-list prefix test. -/
def strStartsWith (s pat : String) : Bool := pat.data.isPrefixOf s.data

/-- Does `pat` occur as a contiguous run inside the list? -/
def listInfix (pat : List Char) : List Char → Bool
  | [] => pat.isEmpty
  | c :: rest => pat.isPrefixOf (c :: rest) || listInfix pat rest

/-- JS `s.includes(p)`, substring containment. -/
def strIncludes (s pat : String) : Bool := listInfix pat.data s.data

/-- JS `s.split(',')` on the character list. -/
def splitCommaChars : List Char → List (List Char)
  | [] => [[]]
  | c :: rest =>
    if c = ',' then [] :: splitCommaChars rest
    else
      match splitCommaChars rest with
      | [] => [[c]]
      | g :: gs => (c :: g) :: gs

/-- JS `s.split(',')`. -/
def jsSplitComma (s : String) : List String := (splitCommaChars s.data).map String.mk

/-- One document of the `Google_sheet_data` collection (`productSchema`):
`SKU` is a required number, `Status` a free-form string defaulting to
`"Pending"`, the content fields are strings defaulting to `null`, and
`Created At` a timestamp (modelled as a natural number). -/
structure Product where
  sku : Nat
  status : String
  preImageURL : Option String
  category : Option String
  waxImageURL : Option String
  castImageURL : Option String
  finalImageURL : Option String
  waxDescription : Option String
  castDescription : Option String
  finalDescription : Option String
  createdAt : Nat
deriving Repr, DecidableEq

/-- `checkFulfillment` of the backend revision that carries the description
endpoints: the three image slots and the three description slots must all
be truthy; `Pre-Image URL` is not consulted. -/
def checkFulfillment (p : Product) : Bool :=
  (truthyStr p.waxImageURL && truthyStr p.castImageURL && truthyStr p.finalImageURL) &&
  (truthyStr p.waxDescription && truthyStr p.castDescription && truthyStr p.finalDescription)

/-- The status-update block that guards `product.save()` in both update
endpoints:
`if (checkFulfillment(product) && product.Status === 'Pending') { flip; re-stamp }`. -/
def recomputeStatus (now : Nat) (p : Product) : Product :=
  if checkFulfillment p && (p.status == "Pending") then
    { p with status := "Fulfilled", createdAt := now }
  else p

namespace ServerJs

/-- `checkFulfillment` as written in `src/backend/server.js`: this revision
additionally requires `Pre-Image URL` to be truthy (`urlsFilled` starts with
`product['Pre-Image URL'] && ...`). -/
def checkFulfillment (p : Product) : Bool :=
  (truthyStr p.preImageURL && truthyStr p.waxImageURL &&
   truthyStr p.castImageURL && truthyStr p.finalImageURL) &&
  (truthyStr p.waxDescription && truthyStr p.castDescription && truthyStr p.finalDescription)

/-- The status-update block of `src/backend/server.js` (same guard shape,
but with that file's `checkFulfillment`). -/
def recomputeStatus (now : Nat) (p : Product) : Product :=
  if checkFulfillment p && (p.status == "Pending") then
    { p with status := "Fulfilled", createdAt := now }
  else p

end ServerJs

/-- Spec-side predicate, for comparison with `checkFulfillment`: all six
required slots — the three image URLs and the three descriptions, with the
legacy `Pre-Image URL` excluded — are non-empty. -/
def specRequiredSlotsFilled (p : Product) : Bool :=
  truthyStr p.waxImageURL && truthyStr p.castImageURL && truthyStr p.finalImageURL &&
  truthyStr p.waxDescription && truthyStr p.castDescription && truthyStr p.finalDescription

/-- The declared paths of `productSchema` — the field names
`productSchema.path(...)` recognises. -/
def schemaPaths : List String :=
  ["SKU", "Status", "Pre-Image URL", "Category", "Wax Image URL", "Cast Image URL",
   "Final Image URL", "Wax Description", "Cast Description", "Final Description",
   "Created At"]

/-- `productSchema.path(field)` used as a Boolean gate by both update
endpoints. -/
def isSchemaPath (field : String) : Bool := schemaPaths.contains field

/-- The six recognised content slots of the data model. -/
def slotNames : List String :=
  ["Wax Image URL", "Cast Image URL", "Final Image URL",
   "Wax Description", "Cast Description", "Final Description"]

/-- `product[field] = value` for the string-valued document fields.  The
endpoints build their keys as `imageType + " Image URL"` or
`descType + " Description"`, so `SKU`, `Status` and `Created At` can never
be addressed and an unrecognised key assigns nothing (the endpoints reject
it before assigning anyway). -/
def setField (p : Product) (field : String) (value : String) : Product :=
  match field with
  | "Pre-Image URL" => { p with preImageURL := some value }
  | "Category" => { p with category := some value }
  | "Wax Image URL" => { p with waxImageURL := some value }
  | "Cast Image URL" => { p with castImageURL := some value }
  | "Final Image URL" => { p with finalImageURL := some value }
  | "Wax Description" => { p with waxDescription := some value }
  | "Cast Description" => { p with castDescription := some value }
  | "Final Description" => { p with finalDescription := some value }
  | _ => p

/-- Read back a string-valued document field (for stating what a save
left in a slot). -/
def getField (p : Product) (field : String) : Option String :=
  match field with
  | "Pre-Image URL" => p.preImageURL
  | "Category" => p.category
  | "Wax Image URL" => p.waxImageURL
  | "Cast Image URL" => p.castImageURL
  | "Final Image URL" => p.finalImageURL
  | "Wax Description" => p.waxDescription
  | "Cast Description" => p.castDescription
  | "Final Description" => p.finalDescription
  | _ => none

/-- The persistent state the update endpoints touch: the product collection
and the `public/images` directory (file name ↦ payload written). -/
structure ServerState where
  store : List Product
  files : List (String × String)
deriving Repr, DecidableEq

/-- `Product.findOne({ 'SKU': sku })`. -/
def findProduct (store : List Product) (sku : Nat) : Option Product :=
  store.find? (fun q => q.sku == sku)

/-- `product.save()`: persist the modified document back into the
collection, keyed by its (unique) SKU. -/
def saveProduct (store : List Product) (p : Product) : List Product :=
  store.map (fun q => if q.sku == p.sku then p else q)

/-- `fs.writeFileSync(path.join(publicImagesDir, filename), buffer)`:
an existing file of the same name is overwritten. -/
def writeFile (files : List (String × String)) (name content : String) :
    List (String × String) :=
  (name, content) :: files.filter (fun e => e.1 != name)

/-- Look a file up in the public image directory. -/
def readFile (files : List (String × String)) (name : String) : Option String :=
  (files.find? (fun e => e.1 == name)).map (fun e => e.2)

/-- An HTTP reply: status code plus the `error`/`message` text of the JSON
body (the success replies also echo the product, which lives in the
returned state). -/
structure Response where
  status : Nat
  body : String
deriving Repr, DecidableEq

/-- JSON body of `POST /api/update-product-image`; absent fields are
`none`. -/
structure ImageReq where
  sku : Option Nat
  imageType : Option String
  imageDataUrl : Option String
deriving Repr, DecidableEq

/-- JSON body of `POST /api/update-product-description`. -/
structure DescReq where
  sku : Option Nat
  descType : Option String
  description : Option String
deriving Repr, DecidableEq

/-- Ambient configuration: the advertised base address used to build public
image URLs, and the current clock (`new Date()`). -/
structure ServerEnv where
  baseUrl : String
  now : Nat
deriving Repr, DecidableEq

/-- The character list of the literal `data:image/`. -/
def dataImageMarker : List Char := "data:image/".data

/-- First match of the regex `data:image\/([^;]+)` against a character
list: at each start position the literal must match and the capture must
be a non-empty run of non-`;` characters; otherwise the engine advances
one position. -/
def regexCapture : List Char → Option (List Char)
  | [] => none
  | c :: rest =>
    if dataImageMarker.isPrefixOf (c :: rest) then
      let cap := ((c :: rest).drop dataImageMarker.length).takeWhile (fun ch => ch != ';')
      if cap.isEmpty then regexCapture rest else some cap
    else regexCapture rest

/-- `formatMatch ? formatMatch[1].split(';')[0] : 'png'` — the capture
already contains no `;`, so the trailing split is the identity. -/
def extractExtension (dataUrl : String) : String :=
  match regexCapture dataUrl.data with
  | some cap => String.mk cap
  | none => "png"

/-- The persisted asset name `` `${sku}_${imageType}.${extension}` ``. -/
def mkFilename (sku : Nat) (imageType ext : String) : String :=
  toString sku ++ "_" ++ imageType ++ "." ++ ext

/-- `POST /api/update-product-image`: validate the fields, resolve the
product, decode and write the image file, validate the slot key, assign
the public URL, re-evaluate fulfillment and save. -/
def updateProductImage (env : ServerEnv) (st : ServerState) (req : ImageReq) :
    Response × ServerState :=
  if !(truthyNat req.sku) || !(truthyStr req.imageType) || !(truthyStr req.imageDataUrl) then
    (⟨400, "SKU, imageType, and imageDataUrl are required"⟩, st)
  else
    let sku := req.sku.getD 0
    let imageType := req.imageType.getD ""
    let imageDataUrl := req.imageDataUrl.getD ""
    match findProduct st.store sku with
    | none => (⟨404, "Product with SKU " ++ toString sku ++ " not found."⟩, st)
    | some product =>
      if !(strStartsWith imageDataUrl "data:image/") then
        (⟨400, "Invalid imageDataUrl format"⟩, st)
      else
        match (jsSplitComma imageDataUrl).get? 1 with
        | none =>
          (⟨500, "Failed to save image"⟩, st)
        | some base64Data =>
          let ext := extractExtension imageDataUrl
          let filename := mkFilename sku imageType ext
          let files := writeFile st.files filename base64Data
          let publicImageUrl := env.baseUrl ++ "/images/" ++ filename
          let fieldToUpdate := imageType ++ " Image URL"
          if !(isSchemaPath fieldToUpdate) then
            (⟨400, "Invalid imageType: " ++ imageType⟩, { st with files := files })
          else
            let product := recomputeStatus env.now (setField product fieldToUpdate publicImageUrl)
            (⟨200, "Image for SKU " ++ toString sku ++ " saved as " ++ imageType ++
               " successfully."⟩,
             { store := saveProduct st.store product, files := files })

/-- `POST /api/update-product-description`: same shape without the file
write and decoding step. -/
def updateProductDescription (env : ServerEnv) (st : ServerState) (req : DescReq) :
    Response × ServerState :=
  if !(truthyNat req.sku) || !(truthyStr req.descType) || !(truthyStr req.description) then
    (⟨400, "SKU, descType, and description are required"⟩, st)
  else
    let sku := req.sku.getD 0
    let descType := req.descType.getD ""
    let description := req.description.getD ""
    match findProduct st.store sku with
    | none => (⟨404, "Product with SKU " ++ toString sku ++ " not found."⟩, st)
    | some product =>
      let fieldToUpdate := descType ++ " Description"
      if !(isSchemaPath fieldToUpdate) then
        (⟨400, "Invalid descType: " ++ descType⟩, st)
      else
        let product := recomputeStatus env.now (setField product fieldToUpdate description)
        (⟨200, "Description for SKU " ++ toString sku ++ " saved as " ++ descType ++
           " successfully."⟩,
         { st with store := saveProduct st.store product })

/-- One prediction of an Imagen `:predict` response. -/
structure Prediction where
  bytesBase64Encoded : Option String
  mimeType : Option String
deriving Repr, DecidableEq

/-- Outcome of one outbound `axios.post` to a model endpoint: either a
parsed JSON body with its (possibly absent or empty) `predictions` array,
or a thrown error (non-2xx status, timeout, network failure). -/
inductive ApiResult where
  | ok (predictions : List Prediction)
  | err (message : String)
deriving Repr, DecidableEq

/-- The value `generateImageWithGoogleAI` resolves with. -/
structure GenSuccess where
  imageBuffer : String
  modelUsed : String
  imageFormat : String
deriving Repr, DecidableEq

/-- The fixed ordered fallback list of candidate models. -/
def imagenModels : List String :=
  ["imagen-4.0-generate-preview-06-06", "imagen-3.0-generate-002"]

/-- Image-format inference from the declared mime type:
jpeg/jpg ↦ jpeg, gif ↦ gif, webp ↦ webp, anything else (or no declared
mime type) ↦ png. -/
def inferFormat : Option String → String
  | none => "png"
  | some mt =>
    if strIncludes mt "jpeg" || strIncludes mt "jpg" then "jpeg"
    else if strIncludes mt "gif" then "gif"
    else if strIncludes mt "webp" then "webp"
    else "png"

/-- The body of one loop iteration of `generateImageWithGoogleAI`: the
attempt succeeds only when the call returns a body whose `predictions`
array is non-empty and whose first prediction carries
`bytesBase64Encoded`; every other outcome is caught by the inner
`catch` and answered with `continue`. -/
def attemptModel (api : String → String → Option String → ApiResult)
    (prompt : String) (ref : Option String) (model : String) : Option GenSuccess :=
  match api model prompt ref with
  | .err _ => none
  | .ok preds =>
    match preds.head? with
    | none => none
    | some pred =>
      match pred.bytesBase64Encoded with
      | none => none
      | some b64 => some ⟨b64, model, inferFormat pred.mimeType⟩

/-- The `for (const model of imagenModels)` loop: return on the first
successful attempt, and throw the aggregate error once the list is
exhausted. -/
def tryModels (attempt : String → Option GenSuccess) :
    List String → Except String GenSuccess
  | [] => .error "All configured Imagen models failed."
  | m :: ms =>
    match attempt m with
    | some r => .ok r
    | none => tryModels attempt ms

/-- `generateImageWithGoogleAI(prompt, referenceImagePath)`.  The ambient
inputs are the configured API key and the outbound HTTP world `api`
(model, prompt, reference path ↦ outcome).  The outer `catch` re-wraps
any thrown message with `'Image generation failed: '`. -/
def generateImageWithGoogleAI (apiKey : Option String)
    (api : String → String → Option String → ApiResult)
    (prompt : String) (referenceImagePath : Option String) :
    Except String GenSuccess :=
  if !(truthyStr apiKey) then
    .error "Image generation failed: Google AI API key not configured"
  else
    match tryModels (attemptModel api prompt referenceImagePath) imagenModels with
    | .ok r => .ok r
    | .error m => .error ("Image generation failed: " ++ m)

/-- A parsed `POST /api/generate-image` request, after the multer
middleware has already stored any uploaded reference image:
`prompt` is the text field, `filePath` is `req.file ? req.file.path : null`. -/
structure GenReq where
  prompt : Option String
  filePath : Option String
deriving Repr, DecidableEq

/-- Reply of the generate-image endpoint: raw image bytes with the
model/format headers, or a JSON error body. -/
inductive GenResponse where
  | image (buffer modelUsed imageFormat : String)
  | jsonErr (status : Nat) (error : String)
deriving Repr, DecidableEq

/-- `POST /api/generate-image`.  `uploads` is the set of files currently in
the `uploads/` directory (the multer middleware has already added the
uploaded file when `req.filePath` is set).  On success the handler sends
the image and then unlinks the reference file if it is truthy and still
exists; a thrown generation error reaches the `catch` block, which
answers 500 and performs no cleanup. -/
def generateImageEndpoint (apiKey : Option String)
    (api : String → String → Option String → ApiResult)
    (uploads : List String) (req : GenReq) : GenResponse × List String :=
  let referenceImagePath := req.filePath
  if !(truthyStr req.prompt) then
    (.jsonErr 400 "Prompt is required", uploads)
  else
    match generateImageWithGoogleAI apiKey api (req.prompt.getD "") referenceImagePath with
    | .ok r =>
      let uploads' :=
        match referenceImagePath with
        | some p => if (p != "") && uploads.contains p then uploads.erase p else uploads
        | none => uploads
      (.image r.imageBuffer r.modelUsed r.imageFormat, uploads')
    | .error msg => (.jsonErr 500 ("Failed to generate image: " ++ msg), uploads)

/-- One save request of the fulfillment core. -/
inductive Request where
  | image (r : ImageReq)
  | descr (r : DescReq)
deriving Repr, DecidableEq

/-- The state transformation of one save request. -/
def step (env : ServerEnv) (st : ServerState) (r : Request) : ServerState :=
  match r with
  | .image r => (updateProductImage env st r).2
  | .descr r => (updateProductDescription env st r).2

/-- Run a sequence of save requests. -/
def run (env : ServerEnv) (st : ServerState) : List Request → ServerState
  | [] => st
  | r :: rs => run env (step env st r) rs

/-- Status of the product with the given SKU, if present. -/
def statusOf (store : List Product) (sku : Nat) : Option String :=
  (findProduct store sku).map (fun p => p.status)

/-- `Created At` timestamp of the product with the given SKU, if present. -/
def createdAtOf (store : List Product) (sku : Nat) : Option Nat :=
  (findProduct store sku).map (fun p => p.createdAt)

/-- Number of steps of the trace on which the given SKU's status moves
from `Pending` to `Fulfilled` (the transition that also re-stamps the
timestamp). -/
def countFires (env : ServerEnv) (st : ServerState) (sku : Nat) :
    List Request → Nat
  | [] => 0
  | r :: rs =>
    (if statusOf st.store sku = some "Pending" ∧
        statusOf (step env st r).store sku = some "Fulfilled"
     then 1 else 0) + countFires env (step env st r) sku rs

/-! ### Helper lemmas -/

lemma beq_append_false (t s u : String) (hns : ¬ s.data <:+ u.data) :
    (t ++ s == u) = false := by
  cases hb : (t ++ s == u) with
  | false => rfl
  | true =>
    exfalso
    have h2 := congrArg String.data (eq_of_beq hb)
    simp only [String.data_append] at h2
    exact hns ⟨t.data, h2⟩

lemma beq_append_right (t u s : String) : (t ++ s == u ++ s) = (t == u) := by
  cases hb : (t == u) with
  | true =>
    have ht : t = u := by simpa using hb
    simp [ht]
  | false =>
    cases hb2 : (t ++ s == u ++ s) with
    | false => rfl
    | true =>
      have h2 := congrArg String.data (eq_of_beq hb2)
      simp only [String.data_append] at h2
      have ht : t = u := String.ext (List.append_cancel_right h2)
      rw [ht] at hb
      simp at hb

lemma isSchemaPath_image_key (t : String) :
    isSchemaPath (t ++ " Image URL") = (t == "Wax" || t == "Cast" || t == "Final") := by
  have e1 := beq_append_false t " Image URL" "SKU" (by decide)
  have e2 := beq_append_false t " Image URL" "Status" (by decide)
  have e3 := beq_append_false t " Image URL" "Pre-Image URL" (by decide)
  have e4 := beq_append_false t " Image URL" "Category" (by decide)
  have e5 : (t ++ " Image URL" == "Wax Image URL") = (t == "Wax") := by
    rw [show ("Wax Image URL" : String) = "Wax" ++ " Image URL" from rfl]
    exact beq_append_right t "Wax" " Image URL"
  have e6 : (t ++ " Image URL" == "Cast Image URL") = (t == "Cast") := by
    rw [show ("Cast Image URL" : String) = "Cast" ++ " Image URL" from rfl]
    exact beq_append_right t "Cast" " Image URL"
  have e7 : (t ++ " Image URL" == "Final Image URL") = (t == "Final") := by
    rw [show ("Final Image URL" : String) = "Final" ++ " Image URL" from rfl]
    exact beq_append_right t "Final" " Image URL"
  have e8 := beq_append_false t " Image URL" "Wax Description" (by decide)
  have e9 := beq_append_false t " Image URL" "Cast Description" (by decide)
  have e10 := beq_append_false t " Image URL" "Final Description" (by decide)
  have e11 := beq_append_false t " Image URL" "Created At" (by decide)
  simp only [isSchemaPath, schemaPaths, List.contains_cons, e1, e2, e3, e4, e5, e6, e7,
    e8, e9, e10, e11]
  simp [Bool.or_assoc]

lemma isSchemaPath_desc_key (t : String) :
    isSchemaPath (t ++ " Description") = (t == "Wax" || t == "Cast" || t == "Final") := by
  have e1 := beq_append_false t " Description" "SKU" (by decide)
  have e2 := beq_append_false t " Description" "Status" (by decide)
  have e3 := beq_append_false t " Description" "Pre-Image URL" (by decide)
  have e4 := beq_append_false t " Description" "Category" (by decide)
  have e5 := beq_append_false t " Description" "Wax Image URL" (by decide)
  have e6 := beq_append_false t " Description" "Cast Image URL" (by decide)
  have e7 := beq_append_false t " Description" "Final Image URL" (by decide)
  have e8 : (t ++ " Description" == "Wax Description") = (t == "Wax") := by
    rw [show ("Wax Description" : String) = "Wax" ++ " Description" from rfl]
    exact beq_append_right t "Wax" " Description"
  have e9 : (t ++ " Description" == "Cast Description") = (t == "Cast") := by
    rw [show ("Cast Description" : String) = "Cast" ++ " Description" from rfl]
    exact beq_append_right t "Cast" " Description"
  have e10 : (t ++ " Description" == "Final Description") = (t == "Final") := by
    rw [show ("Final Description" : String) = "Final" ++ " Description" from rfl]
    exact beq_append_right t "Final" " Description"
  have e11 := beq_append_false t " Description" "Created At" (by decide)
  simp only [isSchemaPath, schemaPaths, List.contains_cons, e1, e2, e3, e4, e5, e6, e7,
    e8, e9, e10, e11]
  simp [Bool.or_assoc]

lemma slotNames_image_key (t : String) :
    slotNames.contains (t ++ " Image URL") = (t == "Wax" || t == "Cast" || t == "Final") := by
  have e1 : (t ++ " Image URL" == "Wax Image URL") = (t == "Wax") := by
    rw [show ("Wax Image URL" : String) = "Wax" ++ " Image URL" from rfl]
    exact beq_append_right t "Wax" " Image URL"
  have e2 : (t ++ " Image URL" == "Cast Image URL") = (t == "Cast") := by
    rw [show ("Cast Image URL" : String) = "Cast" ++ " Image URL" from rfl]
    exact beq_append_right t "Cast" " Image URL"
  have e3 : (t ++ " Image URL" == "Final Image URL") = (t == "Final") := by
    rw [show ("Final Image URL" : String) = "Final" ++ " Image URL" from rfl]
    exact beq_append_right t "Final" " Image URL"
  have e4 := beq_append_false t " Image URL" "Wax Description" (by decide)
  have e5 := beq_append_false t " Image URL" "Cast Description" (by decide)
  have e6 := beq_append_false t " Image URL" "Final Description" (by decide)
  simp only [slotNames, List.contains_cons, e1, e2, e3, e4, e5, e6]
  simp [Bool.or_assoc]

lemma slotNames_desc_key (t : String) :
    slotNames.contains (t ++ " Description") = (t == "Wax" || t == "Cast" || t == "Final") := by
  have e1 := beq_append_false t " Description" "Wax Image URL" (by decide)
  have e2 := beq_append_false t " Description" "Cast Image URL" (by decide)
  have e3 := beq_append_false t " Description" "Final Image URL" (by decide)
  have e4 : (t ++ " Description" == "Wax Description") = (t == "Wax") := by
    rw [show ("Wax Description" : String) = "Wax" ++ " Description" from rfl]
    exact beq_append_right t "Wax" " Description"
  have e5 : (t ++ " Description" == "Cast Description") = (t == "Cast") := by
    rw [show ("Cast Description" : String) = "Cast" ++ " Description" from rfl]
    exact beq_append_right t "Cast" " Description"
  have e6 : (t ++ " Description" == "Final Description") = (t == "Final") := by
    rw [show ("Final Description" : String) = "Final" ++ " Description" from rfl]
    exact beq_append_right t "Final" " Description"
  simp only [slotNames, List.contains_cons, e1, e2, e3, e4, e5, e6]
  simp [Bool.or_assoc]

lemma setField_sku (p : Product) (f v : String) : (setField p f v).sku = p.sku := by
  unfold setField; split <;> rfl

lemma setField_status (p : Product) (f v : String) :
    (setField p f v).status = p.status := by
  unfold setField; split <;> rfl

lemma setField_createdAt (p : Product) (f v : String) :
    (setField p f v).createdAt = p.createdAt := by
  unfold setField; split <;> rfl

lemma recomputeStatus_sku (now : Nat) (p : Product) :
    (recomputeStatus now p).sku = p.sku := by
  unfold recomputeStatus; split <;> rfl

lemma getField_recompute (now : Nat) (p : Product) (f : String) :
    getField (recomputeStatus now p) f = getField p f := by
  unfold recomputeStatus; split <;> rfl

lemma checkFulfillment_restamp (p : Product) (s : String) (n : Nat) :
    checkFulfillment { p with status := s, createdAt := n } = checkFulfillment p := rfl

lemma find?_map_pred {α : Type} (f : α → α) (pr : α → Bool) (l : List α)
    (h : ∀ a, pr (f a) = pr a) :
    (l.map f).find? pr = (l.find? pr).map f := by
  induction l with
  | nil => rfl
  | cons a l ih =>
    simp only [List.map_cons, List.find?_cons]
    rw [h a]
    cases pr a <;> simp [ih]

lemma findProduct_saveProduct (store : List Product) (p' : Product) (sku : Nat) :
    findProduct (saveProduct store p') sku =
      (findProduct store sku).map (fun q => if q.sku == p'.sku then p' else q) := by
  unfold findProduct saveProduct
  apply find?_map_pred
  intro q
  cases hq : (q.sku == p'.sku) with
  | true =>
    have hq' : q.sku = p'.sku := by simpa using hq
    simp [hq, hq']
  | false => simp [hq]

lemma findProduct_sku (store : List Product) (sku : Nat) (p : Product)
    (h : findProduct store sku = some p) : p.sku = sku := by
  unfold findProduct at h
  simpa using List.find?_some h

lemma readFile_writeFile (files : List (String × String)) (name c : String) :
    readFile (writeFile files name c) name = some c := by
  simp [readFile, writeFile]

lemma updateProductImage_invalid_slot (env : ServerEnv) (st : ServerState)
    (sku : Nat) (t d b64 : String) (p : Product)
    (hsku : sku ≠ 0) (ht : t ≠ "") (hd : d ≠ "")
    (hp : findProduct st.store sku = some p)
    (hpre : strStartsWith d "data:image/" = true)
    (hsplit : (jsSplitComma d).get? 1 = some b64)
    (hslot : isSchemaPath (t ++ " Image URL") = false) :
    updateProductImage env st ⟨some sku, some t, some d⟩ =
      (⟨400, "Invalid imageType: " ++ t⟩,
       { store := st.store,
         files := writeFile st.files (mkFilename sku t (extractExtension d)) b64 }) := by
  unfold updateProductImage
  rw [List.get?_eq_getElem?] at hsplit
  simp [truthyNat, truthyStr, hsku, ht, hd, hp, hpre, hsplit, hslot]

lemma updateProductImage_valid (env : ServerEnv) (st : ServerState)
    (sku : Nat) (t d b64 : String) (p : Product)
    (hsku : sku ≠ 0) (ht : t ≠ "") (hd : d ≠ "")
    (hp : findProduct st.store sku = some p)
    (hpre : strStartsWith d "data:image/" = true)
    (hsplit : (jsSplitComma d).get? 1 = some b64)
    (hslot : isSchemaPath (t ++ " Image URL") = true) :
    updateProductImage env st ⟨some sku, some t, some d⟩ =
      (⟨200, "Image for SKU " ++ toString sku ++ " saved as " ++ t ++ " successfully."⟩,
       { store := saveProduct st.store (recomputeStatus env.now (setField p
            (t ++ " Image URL")
            (env.baseUrl ++ "/images/" ++ mkFilename sku t (extractExtension d)))),
         files := writeFile st.files (mkFilename sku t (extractExtension d)) b64 }) := by
  unfold updateProductImage
  rw [List.get?_eq_getElem?] at hsplit
  simp [truthyNat, truthyStr, hsku, ht, hd, hp, hpre, hsplit, hslot]

lemma updateProductDescription_invalid_slot (env : ServerEnv) (st : ServerState)
    (sku : Nat) (t v : String) (p : Product)
    (hsku : sku ≠ 0) (ht : t ≠ "") (hv : v ≠ "")
    (hp : findProduct st.store sku = some p)
    (hslot : isSchemaPath (t ++ " Description") = false) :
    updateProductDescription env st ⟨some sku, some t, some v⟩ =
      (⟨400, "Invalid descType: " ++ t⟩, st) := by
  unfold updateProductDescription
  simp [truthyNat, truthyStr, hsku, ht, hv, hp, hslot]

lemma tryModels_error_message (attempt : String → Option GenSuccess)
    (ms : List String) (e : String)
    (h : tryModels attempt ms = .error e) :
    e = "All configured Imagen models failed." := by
  induction ms with
  | nil =>
    unfold tryModels at h
    exact (Except.error.injEq _ _ ▸ h).symm
  | cons m ms ih =>
    unfold tryModels at h
    cases ha : attempt m with
    | some r => rw [ha] at h; cases h
    | none => rw [ha] at h; exact ih h

lemma tryModels_error_iff (attempt : String → Option GenSuccess) (ms : List String) :
    tryModels attempt ms = .error "All configured Imagen models failed." ↔
      ∀ m ∈ ms, attempt m = none := by
  induction ms with
  | nil => simp [tryModels]
  | cons m ms ih =>
    unfold tryModels
    cases ha : attempt m with
    | some r => simp [ha]
    | none => simp [ha, ih]

lemma tryModels_ok_split (attempt : String → Option GenSuccess) (ms : List String)
    (r : GenSuccess) (h : tryModels attempt ms = .ok r) :
    ∃ m pre post, ms = pre ++ m :: post ∧ (∀ m' ∈ pre, attempt m' = none) ∧
      attempt m = some r := by
  induction ms with
  | nil => simp [tryModels] at h
  | cons m ms ih =>
    unfold tryModels at h
    cases ha : attempt m with
    | some r0 =>
      rw [ha] at h
      obtain rfl : r0 = r := by simpa using h
      exact ⟨m, [], ms, rfl, by simp, ha⟩
    | none =>
      rw [ha] at h
      obtain ⟨m0, pre, post, hms, hpre, hm⟩ := ih h
      refine ⟨m0, m :: pre, post, by simp [hms], ?_, hm⟩
      intro m' hm'
      rcases List.mem_cons.mp hm' with rfl | hmem
      · exact ha
      · exact hpre _ hmem

lemma attemptModel_model (api : String → String → Option String → ApiResult)
    (prompt : String) (ref : Option String) (m : String) (r : GenSuccess)
    (h : attemptModel api prompt ref m = some r) : r.modelUsed = m := by
  unfold attemptModel at h
  cases ha : api m prompt ref with
  | err msg => simp [ha] at h
  | ok preds =>
    simp only [ha] at h
    cases hh : preds.head? with
    | none => simp [hh] at h
    | some pred =>
      simp only [hh] at h
      cases hb : pred.bytesBase64Encoded with
      | none => simp [hb] at h
      | some b64 =>
        simp only [hb, Option.some.injEq] at h
        rw [← h]

/-! ### C1 -/

/-- C1 (amended): in the backend revision carrying the description
endpoints, `checkFulfillment` agrees exactly with the spec-side
"all six required slots non-empty" predicate (`Pre-Image URL` excluded),
the status after a recompute is `Fulfilled` iff it already was or the
product was `Pending` with all six slots filled, and with any required
slot missing (in particular with any five of the six) a recompute changes
nothing.  In the `src/backend/server.js` revision, however,
`checkFulfillment` additionally demands a non-empty `Pre-Image URL`. -/
theorem fulfillment_check_six_slots (p : Product) (now : Nat) :
    (checkFulfillment p = specRequiredSlotsFilled p) ∧
    ((recomputeStatus now p).status = "Fulfilled" ↔
      p.status = "Fulfilled" ∨
        (p.status = "Pending" ∧ specRequiredSlotsFilled p = true)) ∧
    (specRequiredSlotsFilled p = false → recomputeStatus now p = p) ∧
    (ServerJs.checkFulfillment p =
      (truthyStr p.preImageURL && specRequiredSlotsFilled p)) := by
  have hc : checkFulfillment p = specRequiredSlotsFilled p := by
    simp [checkFulfillment, specRequiredSlotsFilled, Bool.and_assoc]
  have hcs : ServerJs.checkFulfillment p =
      (truthyStr p.preImageURL && specRequiredSlotsFilled p) := by
    simp [ServerJs.checkFulfillment, specRequiredSlotsFilled, Bool.and_assoc]
  refine ⟨hc, ?_, ?_, hcs⟩
  · unfold recomputeStatus
    cases hQ : (checkFulfillment p && (p.status == "Pending")) with
    | false =>
      simp only [Bool.false_eq_true, if_false]
      constructor
      · exact Or.inl
      · rintro (h | ⟨hpend, hspec⟩)
        · exact h
        · rw [hc, hspec, hpend] at hQ
          simp at hQ
    | true =>
      obtain ⟨h1, h2⟩ : checkFulfillment p = true ∧ (p.status == "Pending") = true := by
        simpa using hQ
      have hpend : p.status = "Pending" := by simpa using h2
      rw [hc] at h1
      simp [hpend, h1]
  · intro hspec
    unfold recomputeStatus
    rw [hc, hspec]
    simp

/-- A product whose six required slots are all filled while the legacy
`Pre-Image URL` is still `null`. -/
def sixFilledProduct : Product :=
  ⟨1001, "Pending", none, none, some "wax.png", some "cast.png", some "final.png",
   some "wax desc", some "cast desc", some "final desc", 0⟩

/-- C1 counterexample: with all six required slots non-empty but the legacy
`Pre-Image URL` empty, the `src/backend/server.js` fulfillment check is
`false` and its status-update block leaves the product `Pending` — so in
that revision `Pre-Image URL` is *not* excluded from the check and the
claimed biconditional fails. -/
theorem serverjs_fulfillment_requires_preimage :
    specRequiredSlotsFilled sixFilledProduct = true ∧
    ServerJs.checkFulfillment sixFilledProduct = false ∧
    (ServerJs.recomputeStatus 7 sixFilledProduct).status = "Pending" :=
  ⟨rfl, rfl, rfl⟩

/-- Witness for `fulfillment_check_six_slots` at a concrete product. -/
theorem fulfillment_check_six_slots_witness :
    specRequiredSlotsFilled sixFilledProduct = true ∧
    ((recomputeStatus 7 sixFilledProduct).status = "Fulfilled" ↔
      sixFilledProduct.status = "Fulfilled" ∨
        (sixFilledProduct.status = "Pending" ∧
          specRequiredSlotsFilled sixFilledProduct = true)) :=
  ⟨by decide, (fulfillment_check_six_slots sixFilledProduct 7).2.1⟩

/-! ### C3 -/

/-- C3: the status-recompute block is idempotent — a second application
with no intervening slot writes returns the very same product (same
status, same timestamp), and on an already-`Fulfilled` product a
recompute is a no-op (in particular it does not re-stamp the
timestamp).  This holds in both backend revisions. -/
theorem recompute_status_idempotent (p : Product) (t1 t2 : Nat) :
    recomputeStatus t2 (recomputeStatus t1 p) = recomputeStatus t1 p ∧
    ServerJs.recomputeStatus t2 (ServerJs.recomputeStatus t1 p) =
      ServerJs.recomputeStatus t1 p ∧
    (p.status = "Fulfilled" →
      recomputeStatus t1 p = p ∧ ServerJs.recomputeStatus t1 p = p) := by
  refine ⟨?_, ?_, ?_⟩
  · unfold recomputeStatus
    cases hQ : (checkFulfillment p && (p.status == "Pending")) with
    | false => simp [hQ]
    | true => simp [hQ, checkFulfillment]
  · unfold ServerJs.recomputeStatus
    cases hQ : (ServerJs.checkFulfillment p && (p.status == "Pending")) with
    | false => simp [hQ]
    | true => simp [hQ, ServerJs.checkFulfillment]
  · intro hf
    unfold recomputeStatus ServerJs.recomputeStatus
    rw [hf]
    simp

/-- Witness for `recompute_status_idempotent` at a concrete product. -/
theorem recompute_status_idempotent_witness :
    recomputeStatus 2 (recomputeStatus 1 sixFilledProduct) =
      recomputeStatus 1 sixFilledProduct :=
  (recompute_status_idempotent sixFilledProduct 1 2).1

/-! ### C5 -/

/-- C5: with an API key configured, `generateImageWithGoogleAI` walks the
fixed ordered model list: it fails with the aggregate
"All configured Imagen models failed." error exactly when every candidate
attempt fails, and any success is produced by the first candidate whose
attempt yields a prediction with a base64 payload — every model before it
failed, and the result is exactly that attempt's value (so no later model
is consulted). -/
theorem generate_image_first_success (apiKey : Option String)
    (api : String → String → Option String → ApiResult)
    (prompt : String) (ref : Option String)
    (hk : truthyStr apiKey = true) :
    (generateImageWithGoogleAI apiKey api prompt ref =
        .error "Image generation failed: All configured Imagen models failed." ↔
      ∀ m ∈ imagenModels, attemptModel api prompt ref m = none) ∧
    (∀ r, generateImageWithGoogleAI apiKey api prompt ref = .ok r →
      ∃ pre post, imagenModels = pre ++ r.modelUsed :: post ∧
        (∀ m ∈ pre, attemptModel api prompt ref m = none) ∧
        attemptModel api prompt ref r.modelUsed = some r) := by
  unfold generateImageWithGoogleAI
  rw [hk]
  simp only [Bool.not_true, Bool.false_eq_true, if_false]
  constructor
  · cases htm : tryModels (attemptModel api prompt ref) imagenModels with
    | ok r =>
      constructor
      · intro h; cases h
      · intro hall
        have herr := (tryModels_error_iff (attemptModel api prompt ref) imagenModels).mpr hall
        rw [htm] at herr
        cases herr
    | error m =>
      have hm := tryModels_error_message _ _ _ htm
      subst hm
      constructor
      · intro _
        exact (tryModels_error_iff (attemptModel api prompt ref) imagenModels).mp htm
      · intro _
        rfl
  · intro r hr
    cases htm : tryModels (attemptModel api prompt ref) imagenModels with
    | ok r0 =>
      rw [htm] at hr
      obtain rfl : r0 = r := by simpa using hr
      obtain ⟨m0, pre, post, hms, hpre, hm⟩ := tryModels_ok_split _ _ _ htm
      have hmu := attemptModel_model api prompt ref m0 _ hm
      subst hmu
      exact ⟨pre, post, hms, hpre, hm⟩
    | error m =>
      rw [htm] at hr
      cases hr

/-- Witness for `generate_image_first_success` with a configured key and a
world on which every model attempt fails. -/
theorem generate_image_first_success_witness :
    truthyStr (some "key") = true ∧
    (generateImageWithGoogleAI (some "key") (fun _ _ _ => .err "boom") "a ring" none =
        .error "Image generation failed: All configured Imagen models failed." ↔
      ∀ m ∈ imagenModels,
        attemptModel (fun _ _ _ => .err "boom") "a ring" none m = none) :=
  ⟨by decide,
   (generate_image_first_success (some "key") (fun _ _ _ => .err "boom") "a ring" none
     (by decide)).1⟩

/-! ### C6 -/

/-- C6: a generate-image request with a falsy (missing or blank) prompt is
answered `400` with the `Prompt is required` error and the uploads
directory is untouched.  The reply is the same constant for every outbound
world `api`, i.e. the Generation Gateway is never invoked. -/
theorem empty_prompt_rejected_no_call (apiKey : Option String)
    (api : String → String → Option String → ApiResult)
    (uploads : List String) (file : Option String) (prompt : Option String)
    (h : truthyStr prompt = false) :
    generateImageEndpoint apiKey api uploads ⟨prompt, file⟩ =
      (.jsonErr 400 "Prompt is required", uploads) := by
  unfold generateImageEndpoint
  simp [h]

/-- Witness for `empty_prompt_rejected_no_call` at a blank prompt. -/
theorem empty_prompt_rejected_no_call_witness :
    truthyStr (some "") = false ∧
    generateImageEndpoint (some "key") (fun _ _ _ => .ok [⟨some "IMG", none⟩])
        ["uploads/9-r.png"] ⟨some "", some "uploads/9-r.png"⟩ =
      (.jsonErr 400 "Prompt is required", ["uploads/9-r.png"]) :=
  ⟨by decide,
   empty_prompt_rejected_no_call (some "key") (fun _ _ _ => .ok [⟨some "IMG", none⟩])
     ["uploads/9-r.png"] (some "uploads/9-r.png") (some "") (by decide)⟩

/-! ### C2 -/

/-- An outbound world on which every request throws. -/
def failApi : String → String → Option String → ApiResult :=
  fun _ _ _ => .err "ECONNREFUSED"

/-- C2 counterexample: a generate-image request that supplied a reference
image and whose generation fails is answered `500`, and the uploaded
temporary file is still in the uploads directory afterwards — the
failure path performs no cleanup. -/
theorem temp_file_kept_on_failure :
    generateImageEndpoint (some "key") failApi ["uploads/1-ref.png"]
        ⟨some "a gold ring", some "uploads/1-ref.png"⟩ =
      (.jsonErr 500
        "Failed to generate image: Image generation failed: All configured Imagen models failed.",
       ["uploads/1-ref.png"]) := by
  rfl

/-- C2 (amended): the temporary reference file is unlinked only on the
success path, right after the image is sent; when generation throws, the
`catch` block answers 500 and leaves the uploads directory exactly as it
was. -/
theorem temp_file_cleanup_on_success_only (apiKey : Option String)
    (api : String → String → Option String → ApiResult)
    (uploads : List String) (prompt p : String)
    (hprompt : prompt ≠ "") :
    (∀ r, generateImageWithGoogleAI apiKey api prompt (some p) = .ok r →
      (generateImageEndpoint apiKey api uploads ⟨some prompt, some p⟩).2 =
        (if (p != "") && uploads.contains p then uploads.erase p else uploads)) ∧
    (∀ e, generateImageWithGoogleAI apiKey api prompt (some p) = .error e →
      (generateImageEndpoint apiKey api uploads ⟨some prompt, some p⟩).2 = uploads) := by
  have h : truthyStr (some prompt) = true := by simp [truthyStr, hprompt]
  constructor
  · intro r hr
    unfold generateImageEndpoint
    simp [h, hr]
  · intro e he
    unfold generateImageEndpoint
    simp [h, he]

/-- Witness for `temp_file_cleanup_on_success_only`: on a succeeding world
the file is erased. -/
theorem temp_file_cleanup_on_success_only_witness :
    (generateImageEndpoint (some "key") (fun _ _ _ => .ok [⟨some "IMG", none⟩])
        ["uploads/1-ref.png"] ⟨some "a gold ring", some "uploads/1-ref.png"⟩).2 =
      (if ("uploads/1-ref.png" != "") && ["uploads/1-ref.png"].contains "uploads/1-ref.png"
       then ["uploads/1-ref.png"].erase "uploads/1-ref.png" else ["uploads/1-ref.png"]) :=
  (temp_file_cleanup_on_success_only (some "key") (fun _ _ _ => .ok [⟨some "IMG", none⟩])
      ["uploads/1-ref.png"] "a gold ring" "uploads/1-ref.png" (by decide)).1
    ⟨"IMG", "imagen-4.0-generate-preview-06-06", "png"⟩ (by rfl)

/-! ### C7 -/

/-- C7: an update-product-image request whose (present, truthy) fields name
a SKU with no matching product is answered `404` and the reply state is the
input state unchanged — in particular no product record is created and no
file is written. -/
theorem unknown_sku_404_store_unchanged (env : ServerEnv) (st : ServerState)
    (sku : Nat) (t d : String)
    (hsku : sku ≠ 0) (ht : t ≠ "") (hd : d ≠ "")
    (hnone : findProduct st.store sku = none) :
    updateProductImage env st ⟨some sku, some t, some d⟩ =
      (⟨404, "Product with SKU " ++ toString sku ++ " not found."⟩, st) := by
  unfold updateProductImage
  simp [truthyNat, truthyStr, hsku, ht, hd, hnone]

/-- Witness for `unknown_sku_404_store_unchanged` on an empty store. -/
theorem unknown_sku_404_store_unchanged_witness :
    updateProductImage ⟨"http://localhost:5000", 3⟩ ⟨[], []⟩
        ⟨some 7, some "Wax", some "data:image/png;base64,AAA"⟩ =
      (⟨404, "Product with SKU " ++ toString 7 ++ " not found."⟩, ⟨[], []⟩) :=
  unknown_sku_404_store_unchanged ⟨"http://localhost:5000", 3⟩ ⟨[], []⟩ 7 "Wax"
    "data:image/png;base64,AAA" (by decide) (by decide) (by decide) (by rfl)

lemma beq_or3_eq (t : String)
    (h : (t == "Wax" || t == "Cast" || t == "Final") = true) :
    t = "Wax" ∨ t = "Cast" ∨ t = "Final" := by
  simpa [or_assoc] using h

lemma getField_setField_same (p : Product) (v t : String)
    (h : t = "Wax" ∨ t = "Cast" ∨ t = "Final") :
    getField (setField p (t ++ " Image URL") v) (t ++ " Image URL") = some v := by
  rcases h with rfl | rfl | rfl <;> rfl

lemma findProduct_after_save (store : List Product) (p p1 : Product) (sku : Nat)
    (hp : findProduct store sku = some p) (hsku : p1.sku = p.sku) :
    findProduct (saveProduct store p1) sku = some p1 := by
  rw [findProduct_saveProduct, hp]
  simp [hsku]

/-! ### C8 -/

/-- C8: a save request (image or description) on an existing product whose
type discriminator maps to a slot key outside the six recognised slot
names is answered `400` with the `Invalid imageType`/`Invalid descType`
error, and the product collection is exactly what it was — no field is
assigned and nothing is saved (the description endpoint leaves the whole
state untouched). -/
theorem invalid_slot_rejected_unchanged (env : ServerEnv) (st : ServerState)
    (sku : Nat) (t d b64 v : String)
    (hsku : sku ≠ 0) (ht : t ≠ "") (hd : d ≠ "") (hv : v ≠ "")
    (hp : (findProduct st.store sku).isSome = true)
    (hpre : strStartsWith d "data:image/" = true)
    (hsplit : (jsSplitComma d).get? 1 = some b64)
    (hslotI : slotNames.contains (t ++ " Image URL") = false)
    (hslotD : slotNames.contains (t ++ " Description") = false) :
    ((updateProductImage env st ⟨some sku, some t, some d⟩).1 =
        ⟨400, "Invalid imageType: " ++ t⟩ ∧
      ((updateProductImage env st ⟨some sku, some t, some d⟩).2).store = st.store) ∧
    updateProductDescription env st ⟨some sku, some t, some v⟩ =
      (⟨400, "Invalid descType: " ++ t⟩, st) := by
  obtain ⟨p, hp⟩ := Option.isSome_iff_exists.mp hp
  rw [slotNames_image_key] at hslotI
  rw [slotNames_desc_key] at hslotD
  have hI := updateProductImage_invalid_slot env st sku t d b64 p hsku ht hd hp hpre hsplit
    (by rw [isSchemaPath_image_key]; exact hslotI)
  have hD := updateProductDescription_invalid_slot env st sku t v p hsku ht hv hp
    (by rw [isSchemaPath_desc_key]; exact hslotD)
  rw [hI, hD]
  exact ⟨⟨rfl, rfl⟩, rfl⟩

/-- Witness for `invalid_slot_rejected_unchanged` with the unrecognised
discriminator `"Gold"`. -/
theorem invalid_slot_rejected_unchanged_witness :
    ((updateProductImage ⟨"http://localhost:5000", 3⟩ ⟨[sixFilledProduct], []⟩
        ⟨some 1001, some "Gold", some "data:image/png;base64,AAA"⟩).1 =
      ⟨400, "Invalid imageType: " ++ "Gold"⟩ ∧
      ((updateProductImage ⟨"http://localhost:5000", 3⟩ ⟨[sixFilledProduct], []⟩
        ⟨some 1001, some "Gold", some "data:image/png;base64,AAA"⟩).2).store =
        [sixFilledProduct]) ∧
    updateProductDescription ⟨"http://localhost:5000", 3⟩ ⟨[sixFilledProduct], []⟩
        ⟨some 1001, some "Gold", some "shiny"⟩ =
      (⟨400, "Invalid descType: " ++ "Gold"⟩, ⟨[sixFilledProduct], []⟩) :=
  invalid_slot_rejected_unchanged ⟨"http://localhost:5000", 3⟩ ⟨[sixFilledProduct], []⟩
    1001 "Gold" "data:image/png;base64,AAA" "AAA" "shiny"
    (by decide) (by decide) (by decide) (by decide) (by rfl) (by rfl) (by rfl)
    (by rfl) (by rfl)

/-! ### C10 -/

/-- C10: on an existing product, when the data URL carries the recognised
`data:image/` prefix but the imageType is not one of the recognised slots,
the decoded payload is still written to the public image directory under
`sku_imageType.extension` — the write precedes the slot-key validation —
while the endpoint answers `400` and the product collection is left
unchanged. -/
theorem file_written_despite_invalid_slot (env : ServerEnv) (st : ServerState)
    (sku : Nat) (t d b64 : String)
    (hsku : sku ≠ 0) (ht : t ≠ "") (hd : d ≠ "")
    (hp : (findProduct st.store sku).isSome = true)
    (hpre : strStartsWith d "data:image/" = true)
    (hsplit : (jsSplitComma d).get? 1 = some b64)
    (hslot : (t == "Wax" || t == "Cast" || t == "Final") = false) :
    updateProductImage env st ⟨some sku, some t, some d⟩ =
      (⟨400, "Invalid imageType: " ++ t⟩,
       { store := st.store,
         files := writeFile st.files (mkFilename sku t (extractExtension d)) b64 }) := by
  obtain ⟨p, hp⟩ := Option.isSome_iff_exists.mp hp
  exact updateProductImage_invalid_slot env st sku t d b64 p hsku ht hd hp hpre hsplit
    (by rw [isSchemaPath_image_key]; exact hslot)

/-- Witness for `file_written_despite_invalid_slot`: the rejected save
leaves `1001_Gold.png` on disk. -/
theorem file_written_despite_invalid_slot_witness :
    updateProductImage ⟨"http://localhost:5000", 3⟩ ⟨[sixFilledProduct], []⟩
        ⟨some 1001, some "Gold", some "data:image/png;base64,AAA"⟩ =
      (⟨400, "Invalid imageType: " ++ "Gold"⟩,
       { store := [sixFilledProduct],
         files := writeFile [] (mkFilename 1001 "Gold"
           (extractExtension "data:image/png;base64,AAA")) "AAA" }) :=
  file_written_despite_invalid_slot ⟨"http://localhost:5000", 3⟩ ⟨[sixFilledProduct], []⟩
    1001 "Gold" "data:image/png;base64,AAA" "AAA"
    (by decide) (by decide) (by decide) (by rfl) (by rfl) (by rfl) (by rfl)

/-! ### C9 -/

/-- C9: the persisted asset name is the deterministic
`mkFilename sku imageType extension`, a function of `(sku, slot, format)`
alone.  Saving the same `(sku, imageType)` twice with different payloads
of the same format first stores the first payload under that name, then
overwrites the very same file with the second payload (no versioning),
and the product's slot ends up holding the same public URL built from
that one name. -/
theorem asset_filename_deterministic_overwrite (env : ServerEnv) (st : ServerState)
    (sku : Nat) (t d1 d2 b1 b2 : String) (p : Product)
    (hsku : sku ≠ 0) (ht : t ≠ "") (hd1 : d1 ≠ "") (hd2 : d2 ≠ "")
    (hp : findProduct st.store sku = some p)
    (hpre1 : strStartsWith d1 "data:image/" = true)
    (hpre2 : strStartsWith d2 "data:image/" = true)
    (hs1 : (jsSplitComma d1).get? 1 = some b1)
    (hs2 : (jsSplitComma d2).get? 1 = some b2)
    (hvalid : (t == "Wax" || t == "Cast" || t == "Final") = true)
    (hext : extractExtension d2 = extractExtension d1) :
    readFile ((updateProductImage env st ⟨some sku, some t, some d1⟩).2).files
        (mkFilename sku t (extractExtension d1)) = some b1 ∧
    ((updateProductImage env ((updateProductImage env st ⟨some sku, some t, some d1⟩).2)
        ⟨some sku, some t, some d2⟩).2).files =
      writeFile ((updateProductImage env st ⟨some sku, some t, some d1⟩).2).files
        (mkFilename sku t (extractExtension d1)) b2 ∧
    readFile ((updateProductImage env ((updateProductImage env st ⟨some sku, some t, some d1⟩).2)
        ⟨some sku, some t, some d2⟩).2).files
        (mkFilename sku t (extractExtension d1)) = some b2 ∧
    (∃ q, findProduct ((updateProductImage env ((updateProductImage env st
          ⟨some sku, some t, some d1⟩).2) ⟨some sku, some t, some d2⟩).2).store sku =
        some q ∧
      getField q (t ++ " Image URL") =
        some (env.baseUrl ++ "/images/" ++ mkFilename sku t (extractExtension d1))) := by
  have hslot : isSchemaPath (t ++ " Image URL") = true := by
    rw [isSchemaPath_image_key]; exact hvalid
  have h1 := updateProductImage_valid env st sku t d1 b1 p hsku ht hd1 hp hpre1 hs1 hslot
  set url := env.baseUrl ++ "/images/" ++ mkFilename sku t (extractExtension d1) with hurl
  set p1 := recomputeStatus env.now (setField p (t ++ " Image URL") url) with hp1
  have hsk1 : p1.sku = p.sku := by rw [hp1, recomputeStatus_sku, setField_sku]
  have hfind1 : findProduct ((updateProductImage env st ⟨some sku, some t, some d1⟩).2).store
      sku = some p1 := by
    rw [h1]
    exact findProduct_after_save st.store p p1 sku hp hsk1
  have h2 := updateProductImage_valid env
    ((updateProductImage env st ⟨some sku, some t, some d1⟩).2) sku t d2 b2 p1
    hsku ht hd2 hfind1 hpre2 hs2 hslot
  rw [hext] at h2
  set p2 := recomputeStatus env.now (setField p1 (t ++ " Image URL") url) with hp2
  have hsk2 : p2.sku = p1.sku := by rw [hp2, recomputeStatus_sku, setField_sku]
  refine ⟨?_, ?_, ?_, p2, ?_, ?_⟩
  · rw [h1]
    exact readFile_writeFile _ _ _
  · rw [h2, h1]
  · rw [h2]
    exact readFile_writeFile _ _ _
  · rw [h2]
    exact findProduct_after_save _ p1 p2 sku hfind1 hsk2
  · rw [hp2, getField_recompute]
    exact getField_setField_same p1 url t (beq_or3_eq t hvalid)

/-- Witness for `asset_filename_deterministic_overwrite`: two `Wax` saves
for SKU 1001 with different png payloads. -/
theorem asset_filename_deterministic_overwrite_witness :
    readFile ((updateProductImage ⟨"http://localhost:5000", 3⟩ ⟨[sixFilledProduct], []⟩
        ⟨some 1001, some "Wax", some "data:image/png;base64,AAA"⟩).2).files
      (mkFilename 1001 "Wax" (extractExtension "data:image/png;base64,AAA")) = some "AAA" ∧
    ((updateProductImage ⟨"http://localhost:5000", 3⟩
        ((updateProductImage ⟨"http://localhost:5000", 3⟩ ⟨[sixFilledProduct], []⟩
          ⟨some 1001, some "Wax", some "data:image/png;base64,AAA"⟩).2)
        ⟨some 1001, some "Wax", some "data:image/png;base64,BBB"⟩).2).files =
      writeFile ((updateProductImage ⟨"http://localhost:5000", 3⟩ ⟨[sixFilledProduct], []⟩
          ⟨some 1001, some "Wax", some "data:image/png;base64,AAA"⟩).2).files
        (mkFilename 1001 "Wax" (extractExtension "data:image/png;base64,AAA")) "BBB" ∧
    readFile ((updateProductImage ⟨"http://localhost:5000", 3⟩
        ((updateProductImage ⟨"http://localhost:5000", 3⟩ ⟨[sixFilledProduct], []⟩
          ⟨some 1001, some "Wax", some "data:image/png;base64,AAA"⟩).2)
        ⟨some 1001, some "Wax", some "data:image/png;base64,BBB"⟩).2).files
      (mkFilename 1001 "Wax" (extractExtension "data:image/png;base64,AAA")) = some "BBB" ∧
    (∃ q, findProduct ((updateProductImage ⟨"http://localhost:5000", 3⟩
          ((updateProductImage ⟨"http://localhost:5000", 3⟩ ⟨[sixFilledProduct], []⟩
            ⟨some 1001, some "Wax", some "data:image/png;base64,AAA"⟩).2)
          ⟨some 1001, some "Wax", some "data:image/png;base64,BBB"⟩).2).store 1001 =
        some q ∧
      getField q ("Wax" ++ " Image URL") =
        some ("http://localhost:5000" ++ "/images/" ++
          mkFilename 1001 "Wax" (extractExtension "data:image/png;base64,AAA"))) :=
  asset_filename_deterministic_overwrite ⟨"http://localhost:5000", 3⟩
    ⟨[sixFilledProduct], []⟩ 1001 "Wax" "data:image/png;base64,AAA"
    "data:image/png;base64,BBB" "AAA" "BBB" sixFilledProduct
    (by decide) (by decide) (by decide) (by decide) (by rfl) (by rfl) (by rfl)
    (by rfl) (by rfl) (by rfl) (by rfl)

lemma step_store_shape (env : ServerEnv) (st : ServerState) (r : Request) :
    (step env st r).store = st.store ∨
    ∃ rsku p f v, findProduct st.store rsku = some p ∧
      (step env st r).store =
        saveProduct st.store (recomputeStatus env.now (setField p f v)) := by
  cases r with
  | image rq =>
    show (updateProductImage env st rq).2.store = st.store ∨
      ∃ rsku p f v, findProduct st.store rsku = some p ∧
        (updateProductImage env st rq).2.store =
          saveProduct st.store (recomputeStatus env.now (setField p f v))
    unfold updateProductImage
    split
    · exact Or.inl rfl
    · dsimp only
      split
      · exact Or.inl rfl
      · next p hf =>
        split
        · exact Or.inl rfl
        · split
          · exact Or.inl rfl
          · split
            · exact Or.inl rfl
            · exact Or.inr ⟨_, p, _, _, hf, rfl⟩
  | descr rq =>
    show (updateProductDescription env st rq).2.store = st.store ∨
      ∃ rsku p f v, findProduct st.store rsku = some p ∧
        (updateProductDescription env st rq).2.store =
          saveProduct st.store (recomputeStatus env.now (setField p f v))
    unfold updateProductDescription
    split
    · exact Or.inl rfl
    · dsimp only
      split
      · exact Or.inl rfl
      · next p hf =>
        split
        · exact Or.inl rfl
        · exact Or.inr ⟨_, p, _, _, hf, rfl⟩

lemma statusOf_saveProduct (store : List Product) (p' : Product) (sku : Nat) :
    statusOf (saveProduct store p') sku =
      (findProduct store sku).map
        (fun q => if q.sku == p'.sku then p'.status else q.status) := by
  unfold statusOf
  rw [findProduct_saveProduct]
  cases findProduct store sku with
  | none => rfl
  | some q => exact congrArg some (apply_ite Product.status _ _ _)

lemma createdAtOf_saveProduct (store : List Product) (p' : Product) (sku : Nat) :
    createdAtOf (saveProduct store p') sku =
      (findProduct store sku).map
        (fun q => if q.sku == p'.sku then p'.createdAt else q.createdAt) := by
  unfold createdAtOf
  rw [findProduct_saveProduct]
  cases findProduct store sku with
  | none => rfl
  | some q => exact congrArg some (apply_ite Product.createdAt _ _ _)

lemma step_status_cases (env : ServerEnv) (st : ServerState) (r : Request) (sku : Nat) :
    (statusOf (step env st r).store sku = statusOf st.store sku ∧
     createdAtOf (step env st r).store sku = createdAtOf st.store sku) ∨
    (statusOf st.store sku = some "Pending" ∧
     statusOf (step env st r).store sku = some "Fulfilled" ∧
     ∃ q, findProduct (step env st r).store sku = some q ∧
       checkFulfillment q = true) := by
  rcases step_store_shape env st r with h | ⟨rsku, p, f, v, hfind, h⟩
  · exact Or.inl ⟨by rw [h], by rw [h]⟩
  · have hrsku : p.sku = rsku := findProduct_sku _ _ _ hfind
    cases hq : findProduct st.store sku with
    | none =>
      refine Or.inl ⟨?_, ?_⟩
      · rw [h, statusOf_saveProduct, hq]
        unfold statusOf
        rw [hq]
        rfl
      · rw [h, createdAtOf_saveProduct, hq]
        unfold createdAtOf
        rw [hq]
        rfl
    | some q =>
      have hqsku : q.sku = sku := findProduct_sku _ _ _ hq
      have hpsku : (recomputeStatus env.now (setField p f v)).sku = p.sku := by
        rw [recomputeStatus_sku, setField_sku]
      cases hqq : (q.sku == (recomputeStatus env.now (setField p f v)).sku) with
      | false =>
        have hne : ¬ q.sku = (recomputeStatus env.now (setField p f v)).sku := by
          simpa using hqq
        refine Or.inl ⟨?_, ?_⟩
        · rw [h, statusOf_saveProduct, hq]
          unfold statusOf
          rw [hq]
          simp [hne]
        · rw [h, createdAtOf_saveProduct, hq]
          unfold createdAtOf
          rw [hq]
          simp [hne]
      | true =>
        have hq2 : q.sku = p.sku := by
          have hb := beq_iff_eq.mp hqq
          rw [hpsku] at hb
          exact hb
        have hsr : rsku = sku := by rw [← hrsku, ← hq2, hqsku]
        have h1 : findProduct st.store sku = some p := hsr ▸ hfind
        obtain rfl : p = q := by
          rw [h1] at hq
          exact Option.some_inj.mp hq
        cases hfire : (checkFulfillment (setField p f v) &&
            ((setField p f v).status == "Pending")) with
        | false =>
          have hpeq : recomputeStatus env.now (setField p f v) = setField p f v := by
            unfold recomputeStatus
            rw [hfire]
            rfl
          refine Or.inl ⟨?_, ?_⟩
          · rw [h, statusOf_saveProduct, hq]
            unfold statusOf
            rw [hq]
            simp [hpeq, setField_sku, setField_status]
          · rw [h, createdAtOf_saveProduct, hq]
            unfold createdAtOf
            rw [hq]
            simp [hpeq, setField_sku, setField_createdAt]
        | true =>
          obtain ⟨hfc, hfs⟩ : checkFulfillment (setField p f v) = true ∧
              ((setField p f v).status == "Pending") = true := by simpa using hfire
          have hps : p.status = "Pending" := by
            rw [← setField_status p f v]
            exact beq_iff_eq.mp hfs
          have hpeq : recomputeStatus env.now (setField p f v) =
              { setField p f v with status := "Fulfilled", createdAt := env.now } := by
            unfold recomputeStatus
            rw [hfire]
            rfl
          refine Or.inr ⟨?_, ?_, ?_⟩
          · unfold statusOf
            rw [hq]
            simp [hps]
          · rw [h, statusOf_saveProduct, hq]
            simp [hpeq, setField_sku]
          · refine ⟨recomputeStatus env.now (setField p f v), ?_, ?_⟩
            · rw [h]
              exact findProduct_after_save st.store p _ sku hq hpsku
            · rw [hpeq, checkFulfillment_restamp]
              exact hfc

lemma run_keeps_fulfilled (env : ServerEnv) (sku : Nat) (rs : List Request)
    (st : ServerState) (h : statusOf st.store sku = some "Fulfilled") :
    statusOf (run env st rs).store sku = some "Fulfilled" ∧
    createdAtOf (run env st rs).store sku = createdAtOf st.store sku := by
  induction rs generalizing st with
  | nil => exact ⟨h, rfl⟩
  | cons r rs ih =>
    rcases step_status_cases env st r sku with ⟨h1, h2⟩ | ⟨h1, _, _⟩
    · obtain ⟨ha, hb⟩ := ih (step env st r) (by rw [h1, h])
      exact ⟨ha, by rw [show run env st (r :: rs) = run env (step env st r) rs from rfl,
        hb, h2]⟩
    · rw [h] at h1
      simp at h1

lemma countFires_zero_of_fulfilled (env : ServerEnv) (sku : Nat) (rs : List Request)
    (st : ServerState) (h : statusOf st.store sku = some "Fulfilled") :
    countFires env st sku rs = 0 := by
  induction rs generalizing st with
  | nil => rfl
  | cons r rs ih =>
    have hstep : statusOf (step env st r).store sku = some "Fulfilled" := by
      rcases step_status_cases env st r sku with ⟨h1, _⟩ | ⟨h1, _, _⟩
      · rw [h1, h]
      · rw [h] at h1
        simp at h1
    unfold countFires
    rw [ih (step env st r) hstep]
    simp [h]

lemma countFires_le_one (env : ServerEnv) (sku : Nat) (rs : List Request)
    (st : ServerState) : countFires env st sku rs ≤ 1 := by
  induction rs generalizing st with
  | nil => exact Nat.zero_le 1
  | cons r rs ih =>
    unfold countFires
    by_cases hc : (statusOf st.store sku = some "Pending" ∧
        statusOf (step env st r).store sku = some "Fulfilled")
    · rw [if_pos hc, countFires_zero_of_fulfilled env sku rs (step env st r) hc.2]
    · rw [if_neg hc]
      simpa using ih (step env st r)

/-! ### C4 -/

/-- C4: over any sequence of image-save and description-save requests, a
product's status is monotonic — once `Fulfilled` it stays `Fulfilled` and
its timestamp is never re-stamped again — the `Pending → Fulfilled`
transition (the one that re-stamps the timestamp) fires at most once along
the trace, and any step after which the status is `Fulfilled` either left
it already `Fulfilled` or moved it from `Pending` on a write after which
the stored product passes the fulfillment check (the write that completed
the slot set). -/
theorem status_monotonic_fires_once (env : ServerEnv) (st : ServerState)
    (sku : Nat) (rs : List Request) :
    (statusOf st.store sku = some "Fulfilled" →
      statusOf (run env st rs).store sku = some "Fulfilled" ∧
      createdAtOf (run env st rs).store sku = createdAtOf st.store sku) ∧
    countFires env st sku rs ≤ 1 ∧
    (∀ r, statusOf (step env st r).store sku = some "Fulfilled" →
      statusOf st.store sku = some "Fulfilled" ∨
        (statusOf st.store sku = some "Pending" ∧
         ∃ q, findProduct (step env st r).store sku = some q ∧
           checkFulfillment q = true)) := by
  refine ⟨fun h => run_keeps_fulfilled env sku rs st h, countFires_le_one env sku rs st, ?_⟩
  intro r hr
  rcases step_status_cases env st r sku with ⟨h1, _⟩ | ⟨h1, _, hex⟩
  · exact Or.inl (by rw [← h1, hr])
  · exact Or.inr ⟨h1, hex⟩

/-- Witness for `status_monotonic_fires_once`: a fulfilled product stays
fulfilled with its timestamp intact across a redundant save. -/
theorem status_monotonic_fires_once_witness :
    statusOf [{ sixFilledProduct with status := "Fulfilled" }] 1001 = some "Fulfilled" ∧
    (statusOf (run ⟨"http://localhost:5000", 9⟩
        ⟨[{ sixFilledProduct with status := "Fulfilled" }], []⟩
        [Request.descr ⟨some 1001, some "Wax", some "new text"⟩]).store 1001 =
        some "Fulfilled" ∧
      createdAtOf (run ⟨"http://localhost:5000", 9⟩
        ⟨[{ sixFilledProduct with status := "Fulfilled" }], []⟩
        [Request.descr ⟨some 1001, some "Wax", some "new text"⟩]).store 1001 =
        createdAtOf [{ sixFilledProduct with status := "Fulfilled" }] 1001) ∧
    countFires ⟨"http://localhost:5000", 9⟩
      ⟨[{ sixFilledProduct with status := "Fulfilled" }], []⟩ 1001
      [Request.descr ⟨some 1001, some "Wax", some "new text"⟩] ≤ 1 :=
  ⟨by rfl,
   (status_monotonic_fires_once ⟨"http://localhost:5000", 9⟩
     ⟨[{ sixFilledProduct with status := "Fulfilled" }], []⟩ 1001
     [Request.descr ⟨some 1001, some "Wax", some "new text"⟩]).1 (by rfl),
   (status_monotonic_fires_once ⟨"http://localhost:5000", 9⟩
     ⟨[{ sixFilledProduct with status := "Fulfilled" }], []⟩ 1001
     [Request.descr ⟨some 1001, some "Wax", some "new text"⟩]).2.1⟩
